import Mathlib

/-!
Shallow embedding of the real-time chat subsystem of the diabetic-care
application, covering the two chat screens and the RealTimeChat component:

* `src/app/chat/[patientId].tsx` — the doctor-side chat screen, keyed by
  patient id, with a channel registry and a lazily created `chats` record.
* `src/components/RealTimeChat.tsx` — the conversation-id (chat_id) keyed
  chat component.
* `src/app/chat/[userId].tsx` — the sender/receiver-pair keyed chat screen.

Stateful React code is embedded as explicit state passing: each screen's
relevant state (the in-memory message list and the subscription bookkeeping)
is a structure, each handler or effect is a function on that structure, and
a view lifecycle is a list of operations folded over an initial state.
Timestamps are modelled as naturals; the external store (Supabase/Postgres)
query semantics are modelled as list filtering plus a stable sort.
-/

namespace DiabeticCare

/-- Row of the `messages` table as used by `src/app/chat/[patientId].tsx`
(`Tables<'messages'>` from `src/types/database.ts`). -/
structure Msg where
  id : String
  chat_id : String
  patient_id : String
  sender_id : String
  sender_type : String
  message : String
  created_at : Nat
deriving DecidableEq, Repr

/-- A realtime channel as created by `subscribeToMessages` in
`src/app/chat/[patientId].tsx`: its name is `chat:<patientId>:<Date.now()>`,
modelled by the pair of the timestamp component and the `patient_id` filter. -/
structure Channel where
  ident : Nat
  filterPatientId : String
deriving DecidableEq, Repr

/-- State of the `[patientId].tsx` chat screen that the claims are about:
the `messages` state, the `channelRef` ref, and the set of channels
currently registered with the client (`supabase`'s channel registry,
restricted to this view, since each view creates its own channels). -/
structure ChatScreenState where
  messages : List Msg
  channelRef : Option Channel
  activeChannels : List Channel
deriving DecidableEq, Repr

/-- `handleNewMessage` (lines 55-58 of `[patientId].tsx`):
`setMessages((prev) => [...prev, payload.new])` — appends the payload
unconditionally. -/
def handleNewMessage (s : ChatScreenState) (payload : Msg) : ChatScreenState :=
  { s with messages := s.messages ++ [payload] }

/-- `supabase.removeChannel(c)`: the channel is removed from the client
registry and its handler no longer fires. -/
def removeChannel (s : ChatScreenState) (c : Channel) : ChatScreenState :=
  { s with activeChannels := s.activeChannels.filter (fun c2 => c2 ≠ c) }

/-- `subscribeToMessages` (lines 112-135 of `[patientId].tsx`): if
`channelRef.current` is set, remove that channel and null the ref; then
create a channel named `chat:<patientId>:<now>` with filter
`patient_id=eq.<patientId>`, subscribe it, and store it in the ref. -/
def subscribeToMessages (pid : String) (now : Nat) (s : ChatScreenState) :
    ChatScreenState :=
  let s1 := match s.channelRef with
    | some c => { removeChannel s c with channelRef := none }
    | none => s
  let ch : Channel := { ident := now, filterPatientId := pid }
  { s1 with activeChannels := s1.activeChannels ++ [ch], channelRef := some ch }

/-- The `useEffect` cleanup (lines 159-164 of `[patientId].tsx`): if
`channelRef.current` is set, remove the channel and null the ref. -/
def cleanupEffect (s : ChatScreenState) : ChatScreenState :=
  match s.channelRef with
  | some c => { removeChannel s c with channelRef := none }
  | none => s

/-- Delivery of a postgres INSERT event: every registered channel whose
`patient_id` filter matches the row fires its handler (`handleNewMessage`). -/
def deliverInsert (s : ChatScreenState) (payload : Msg) : ChatScreenState :=
  (s.activeChannels.filter (fun c => c.filterPatientId = payload.patient_id)).foldl
    (fun acc _ => handleNewMessage acc payload) s

/-- Successful completion of `fetchMessages` (lines 95-110 of
`[patientId].tsx`): `setMessages(data || [])`. -/
def fetchMessagesSet (s : ChatScreenState) (data : List Msg) : ChatScreenState :=
  { s with messages := data }

/-- The operations that can happen to an open `[patientId].tsx` view:
a historical fetch resolving with `data`, a (re)subscription at clock value
`now`, delivery of a live INSERT event, and the effect cleanup. -/
inductive ViewOp where
  | fetch (data : List Msg)
  | subscribe (now : Nat)
  | deliver (payload : Msg)
  | cleanup
deriving DecidableEq, Repr

def stepView (pid : String) (s : ChatScreenState) : ViewOp → ChatScreenState
  | .fetch data => fetchMessagesSet s data
  | .subscribe now => subscribeToMessages pid now s
  | .deliver payload => deliverInsert s payload
  | .cleanup => cleanupEffect s

/-- Initial state of the view: empty message list, no channel. -/
def initView : ChatScreenState :=
  { messages := [], channelRef := none, activeChannels := [] }

def runView (pid : String) (ops : List ViewOp) : ChatScreenState :=
  ops.foldl (stepView pid) initView

/-- Well-formedness of the view state: the channels registered by this view
are exactly the content of `channelRef`. -/
def wfView (s : ChatScreenState) : Prop :=
  s.activeChannels = s.channelRef.toList

/-- Message shape used by `src/components/RealTimeChat.tsx` (its local
`Message` interface, plus the `chat_id` column the component filters on). -/
structure RTMsg where
  id : String
  chat_id : String
  sender_id : String
  message : String
  created_at : Nat
deriving DecidableEq, Repr

/-- State of the `RealTimeChat` component: the `messages` state and the
subscription, which when present carries its `chat_id=eq.<chatId>` filter. -/
structure RTState where
  messages : List RTMsg
  sub : Option String
deriving DecidableEq, Repr

/-- The INSERT handler of `RealTimeChat` (lines 34-40):
`setMessages(prev => [...prev, payload.new])`, fired only for events passing
the `chat_id` filter of the subscription, when one is registered. -/
def rtDeliverInsert (s : RTState) (m : RTMsg) : RTState :=
  match s.sub with
  | some cid => if m.chat_id = cid then { s with messages := s.messages ++ [m] } else s
  | none => s

/-- Lifecycle operations of a mounted `RealTimeChat`: the `useEffect` body
subscribes with filter `messages:chat_id=eq.<chatId>` and runs
`fetchMessages` (whose resolution sets `messages`); the cleanup calls
`supabase.removeSubscription`. -/
inductive RTOp where
  | subscribe
  | fetch (data : List RTMsg)
  | deliver (m : RTMsg)
  | cleanup
deriving DecidableEq, Repr

def stepRT (chatId : String) (s : RTState) : RTOp → RTState
  | .subscribe => { s with sub := some chatId }
  | .fetch data => { s with messages := data }
  | .deliver m => rtDeliverInsert s m
  | .cleanup => { s with sub := none }

def initRT : RTState := { messages := [], sub := none }

def runRT (chatId : String) (ops : List RTOp) : RTState :=
  ops.foldl (stepRT chatId) initRT

/-! ### Store model: the `messages` table and the query issued by
`fetchMessages` in `RealTimeChat.tsx` (lines 47-60), namely
`.select('*').eq('chat_id', chatId).order('created_at', { ascending: true })`.
The persisted table is a list of rows in insertion order; `ORDER BY` is
modelled as a stable sort on `created_at`. -/

/-- Stable insertion of a row into a list sorted ascending on the key `ts`:
the new row goes before the first strictly later position; equal keys
already present (inserted earlier) stay in front. -/
def insertByTs {α : Type} (ts : α → Nat) (m : α) : List α → List α
  | [] => [m]
  | y :: ys => if ts m ≤ ts y then m :: y :: ys else y :: insertByTs ts m ys

/-- Stable sort of the rows ascending on the key `ts` (insertion order
preserved among equal keys). -/
def sortByCreatedAt {α : Type} (ts : α → Nat) : List α → List α
  | [] => []
  | x :: xs => insertByTs ts x (sortByCreatedAt ts xs)

/-- The query behind `fetchMessages` of `RealTimeChat.tsx`: all rows with
the given `chat_id`, ordered by `created_at` ascending. -/
def fetchMessagesQuery (db : List RTMsg) (chatId : String) : List RTMsg :=
  sortByCreatedAt RTMsg.created_at (db.filter (fun r => r.chat_id = chatId))

/-- The query behind `fetchMessages` of `[patientId].tsx` (lines 95-110),
namely `.select('*').eq('patient_id', patientId).order('created_at',
{ ascending: true })`: all rows with the given `patient_id` —
whatever conversation (`chat_id`) they belong to — ordered by `created_at`
ascending. -/
def fetchMessagesDocQuery (db : List Msg) (patientId : String) : List Msg :=
  sortByCreatedAt Msg.created_at (db.filter (fun r => r.patient_id = patientId))

/-- A successful `INSERT` into the `messages` table appends the row (with its
store-assigned id and `created_at`) to the table. -/
def appendMessage (db : List RTMsg) (row : RTMsg) : List RTMsg :=
  db ++ [row]

/-! ### Input trimming, the conversation resolver, and the send paths -/

/-- Whitespace as recognised by JavaScript `String.prototype.trim` for the
ASCII range: space, tab, line feed, carriage return, vertical tab, form feed. -/
def isJsSpace (c : Char) : Bool :=
  c == ' ' || c == '\t' || c == '\n' || c == '\x0d' || c == '\x0b' || c == '\x0c'

/-- Model of `String.prototype.trim`: drop leading and trailing whitespace. -/
def trimString (s : String) : String :=
  String.mk (((s.data.dropWhile isJsSpace).reverse.dropWhile isJsSpace).reverse)

/-- Row of the `chats` table as used by `sendMessage` in
`[patientId].tsx` (columns `id`, `patient_id`, `doctor_id`). -/
structure ChatRec where
  id : String
  patient_id : String
  doctor_id : String
deriving DecidableEq, Repr

/-- The `.from('chats').select('id').eq('patient_id', ...).eq('doctor_id', ...)
.single()` query: the id of the first matching row, when one exists (no row
makes `.single()` yield the PGRST116 error, which the code treats as
not-found). -/
def selectChatId (db : List ChatRec) (pid did : String) : Option String :=
  (db.find? (fun c => c.patient_id == pid && c.doctor_id == did)).map ChatRec.id

inductive ResolveError where
  | uniqueViolation
deriving DecidableEq, Repr

/-- `INSERT` into `chats` under the at-most-one-conversation-per-pair
constraint: fails with a unique-constraint violation when a row for the pair
already exists, otherwise appends the new row and returns its id. -/
def insertChatRec (db : List ChatRec) (pid did newId : String) :
    Except ResolveError (String × List ChatRec) :=
  if db.any (fun c => c.patient_id == pid && c.doctor_id == did) then
    .error .uniqueViolation
  else
    .ok (newId, db ++ [⟨newId, pid, did⟩])

/-- The find-or-create of the `chats` record inside `sendMessage`
(lines 172-196 of `[patientId].tsx`). `dbAtSelect` is the table contents seen
by the select, `dbAtInsert` those seen by the insert; a concurrent resolver
may have inserted between the two. The code path on insert error is
`if (newChatError) throw newChatError` — the error propagates, with no
re-query. -/
def resolveConversation (dbAtSelect dbAtInsert : List ChatRec)
    (pid did newId : String) : Except ResolveError (String × List ChatRec) :=
  match selectChatId dbAtSelect pid did with
  | some cid => .ok (cid, dbAtInsert)
  | none =>
      match insertChatRec dbAtInsert pid did newId with
      | .ok (cid, db2) => .ok (cid, db2)
      | .error e => .error e

/-- The store calls `sendMessage` of `[patientId].tsx` can issue, in order. -/
inductive StoreCall where
  | selectChat (pid did : String)
  | insertChat (pid did : String)
  | insertMessage (body sender pid chatId stype : String)
deriving DecidableEq, Repr

/-- Outcome of the `chats` select as observed by the code: a row with an id,
no rows (error code PGRST116, treated as not-found), or another failure
(thrown). -/
inductive SelectOutcome where
  | rows (cid : String)
  | noRows
  | failure
deriving DecidableEq, Repr

/-- Backend responses for one run of `sendMessage` in `[patientId].tsx`. -/
structure SendEnv where
  selectChatOutcome : SelectOutcome
  insertChatOutcome : Option String
  insertMessageFails : Bool
deriving DecidableEq, Repr

/-- Observable result of one run of `sendMessage` in `[patientId].tsx`:
the store calls issued, the alert shown (the catch block runs
`Alert.alert('Error', 'Failed to send message')`), the input field
afterwards (`setNewMessage('')` on success only), and the `messages` state
afterwards (the function never calls `setMessages`). -/
structure SendResult where
  calls : List StoreCall
  uiAlert : Option String
  inputAfter : String
  messagesAfter : List Msg
deriving DecidableEq, Repr

/-- Tail of `sendMessage` in `[patientId].tsx` (lines 198-214) once a chat id
is in hand: insert the trimmed message; on error the catch block alerts, on
success the input is cleared. In neither case is `messages` touched. -/
def finishSendDoc (pid did cid newMessage : String) (messages : List Msg)
    (calls : List StoreCall) (fails : Bool) : SendResult :=
  let calls2 := calls ++ [StoreCall.insertMessage (trimString newMessage) did pid cid "doctor"]
  if fails then
    { calls := calls2, uiAlert := some "Failed to send message",
      inputAfter := newMessage, messagesAfter := messages }
  else
    { calls := calls2, uiAlert := none, inputAfter := "", messagesAfter := messages }

/-- `sendMessage` of `[patientId].tsx` (lines 167-215). The guard
`if (!newMessage.trim() || !currentDoctor || sending) return;` exits before
any I/O; otherwise the chat is resolved (select, then insert on not-found)
and the message inserted, with every thrown error landing in the catch
block's alert. -/
def sendMessageDoc (pid : String) (currentDoctor : Option String) (sending : Bool)
    (newMessage : String) (messages : List Msg) (env : SendEnv) : SendResult :=
  match currentDoctor with
  | none =>
      { calls := [], uiAlert := none, inputAfter := newMessage, messagesAfter := messages }
  | some did =>
      if trimString newMessage = "" ∨ sending = true then
        { calls := [], uiAlert := none, inputAfter := newMessage, messagesAfter := messages }
      else
        let calls0 := [StoreCall.selectChat pid did]
        match env.selectChatOutcome with
        | .failure =>
            { calls := calls0, uiAlert := some "Failed to send message",
              inputAfter := newMessage, messagesAfter := messages }
        | .rows cid =>
            finishSendDoc pid did cid newMessage messages calls0 env.insertMessageFails
        | .noRows =>
            let calls1 := calls0 ++ [StoreCall.insertChat pid did]
            match env.insertChatOutcome with
            | none =>
                { calls := calls1, uiAlert := some "Failed to send message",
                  inputAfter := newMessage, messagesAfter := messages }
            | some cid =>
                finishSendDoc pid did cid newMessage messages calls1 env.insertMessageFails

/-- Store calls `sendMessage` of `RealTimeChat.tsx` can issue. -/
inductive RTCall where
  | insertMessage (chatId sender body : String)
deriving DecidableEq, Repr

/-- Observable result of one run of `sendMessage` in `RealTimeChat.tsx`
(lines 66-82): calls issued, whether a UI alert was shown (the component
shows none; its only failure handling is `console.error`), whether the error
was logged to the console, the input afterwards (`setInput('')` on success
only), and the `messages` state afterwards (never touched by this function). -/
structure RTSendResult where
  calls : List RTCall
  uiAlert : Option String
  consoleErrorLogged : Bool
  inputAfter : String
  messagesAfter : List RTMsg
deriving DecidableEq, Repr

/-- `sendMessage` of `RealTimeChat.tsx`:
`if (input.trim().length === 0) return;` then one insert; on error only
`console.error`, on success `setInput('')`. -/
def sendMessageRT (chatId currentUserId input : String) (messages : List RTMsg)
    (insertFails : Bool) : RTSendResult :=
  if (trimString input).length = 0 then
    { calls := [], uiAlert := none, consoleErrorLogged := false,
      inputAfter := input, messagesAfter := messages }
  else
    let calls := [RTCall.insertMessage chatId currentUserId (trimString input)]
    if insertFails then
      { calls := calls, uiAlert := none, consoleErrorLogged := true,
        inputAfter := input, messagesAfter := messages }
    else
      { calls := calls, uiAlert := none, consoleErrorLogged := false,
        inputAfter := "", messagesAfter := messages }

/-! ### The sender/receiver-pair keyed screen `src/app/chat/[userId].tsx` -/

/-- Message shape of `[userId].tsx` (its local `Message` interface). -/
structure UMsg where
  id : String
  sender_id : String
  receiver_id : String
  content : String
  created_at : Nat
deriving DecidableEq, Repr

/-- Live delivery in `[userId].tsx` (lines 50-62): the subscription filter is
`messages:receiver_id=eq.<user.id>`, so only rows whose `receiver_id` is the
current user reach the handler; the handler then appends when the event
belongs to the open pair, by either direction of the sender/receiver check. -/
def uDeliverInsert (me partnerId : String) (messages : List UMsg) (m : UMsg) :
    List UMsg :=
  if m.receiver_id = me then
    if (m.sender_id = partnerId ∧ m.receiver_id = me) ∨
        (m.sender_id = me ∧ m.receiver_id = partnerId) then
      messages ++ [m]
    else messages
  else messages

/-! ### Concrete example values used by counterexamples and witnesses -/

def msgHello : Msg := ⟨"m1", "c1", "p1", "d1", "doctor", "hello", 1⟩

def msgHey : Msg := ⟨"m2", "c1", "p1", "u1", "patient", "hey", 5⟩

def msgHo : Msg := ⟨"m3", "c1", "p1", "u1", "patient", "ho", 5⟩

def msgChatA : Msg := ⟨"m1", "c1", "p1", "u1", "patient", "a", 1⟩

def msgOtherChat : Msg := ⟨"m2", "c2", "p1", "u2", "doctor", "b", 2⟩

def seededState : ChatScreenState :=
  { messages := [msgHello], channelRef := none, activeChannels := [] }

def chatRec0 : ChatRec := ⟨"c0", "p1", "d1"⟩

def chatRec1 : ChatRec := ⟨"c1", "p1", "d1"⟩

def blankInput : String := "   "

def sendEnvOk : SendEnv :=
  { selectChatOutcome := SelectOutcome.noRows, insertChatOutcome := some "c1",
    insertMessageFails := false }

def rtMsgA : RTMsg := ⟨"a", "c1", "u1", "hi", 1⟩

def rtMsgB : RTMsg := ⟨"b", "c1", "u2", "yo", 2⟩

def ownEchoMsg : UMsg := ⟨"x", "u1", "u1", "hi", 1⟩

theorem wfView_init : wfView initView := rfl

theorem wfView_step (pid : String) (s : ChatScreenState) (op : ViewOp)
    (h : wfView s) : wfView (stepView pid s op) := by
  cases op with
  | fetch data => simpa [stepView, fetchMessagesSet, wfView] using h
  | deliver payload =>
      simp only [stepView, deliverInsert, wfView] at *
      generalize (List.filter _ s.activeChannels) = cs
      induction cs generalizing s with
      | nil => simpa using h
      | cons c cs ih =>
          simp only [List.foldl_cons]
          exact ih _ (by simpa [handleNewMessage, wfView] using h)
  | cleanup =>
      cases hc : s.channelRef with
      | none => simpa [stepView, cleanupEffect, hc] using h
      | some c =>
          simp only [stepView, cleanupEffect, hc, wfView, removeChannel]
          rw [wfView, hc] at h
          simp [h]
  | subscribe now =>
      cases hc : s.channelRef with
      | none =>
          rw [wfView, hc] at h
          simp [stepView, subscribeToMessages, hc, wfView, h]
      | some c =>
          rw [wfView, hc] at h
          simp [stepView, subscribeToMessages, hc, wfView, removeChannel, h]

theorem wfView_run (pid : String) (ops : List ViewOp) : wfView (runView pid ops) := by
  rw [runView]
  have h : ∀ s, wfView s → wfView (ops.foldl (stepView pid) s) := by
    induction ops with
    | nil => exact fun s hs => hs
    | cons op ops ih => exact fun s hs => ih _ (wfView_step pid s op hs)
  exact h initView wfView_init

/-- Subscribing leaves the message list untouched. -/
theorem subscribeToMessages_messages (pid : String) (now : Nat) (s : ChatScreenState) :
    (subscribeToMessages pid now s).messages = s.messages := by
  cases hc : s.channelRef <;> simp [subscribeToMessages, hc, removeChannel]

/-- In a well-formed state, subscribing leaves exactly the newly created
channel registered (any prior channel is removed first). -/
theorem subscribeToMessages_activeChannels (pid : String) (now : Nat)
    (s : ChatScreenState) (h : wfView s) :
    (subscribeToMessages pid now s).activeChannels =
      [{ ident := now, filterPatientId := pid }] := by
  cases hc : s.channelRef with
  | none =>
      rw [wfView, hc] at h
      simp [subscribeToMessages, hc, h]
  | some c =>
      rw [wfView, hc] at h
      simp [subscribeToMessages, hc, removeChannel, h]

theorem foldl_handleNewMessage_channels (m : Msg) (cs : List Channel)
    (s : ChatScreenState) :
    (cs.foldl (fun acc _ => handleNewMessage acc m) s).activeChannels =
        s.activeChannels ∧
    (cs.foldl (fun acc _ => handleNewMessage acc m) s).channelRef = s.channelRef := by
  induction cs generalizing s with
  | nil => exact ⟨rfl, rfl⟩
  | cons c cs ih => simpa [handleNewMessage] using ih (handleNewMessage s m)

/-- Delivery only changes the message list, not the subscription bookkeeping. -/
theorem deliverInsert_channels (s : ChatScreenState) (m : Msg) :
    (deliverInsert s m).activeChannels = s.activeChannels ∧
    (deliverInsert s m).channelRef = s.channelRef := by
  rw [deliverInsert]
  exact foldl_handleNewMessage_channels m _ s

/-- With a single registered channel, delivery appends the event exactly when
its `patient_id` matches the channel's filter — unconditionally, with no
duplicate-id check. -/
theorem deliverInsert_single_channel (s : ChatScreenState) (now : Nat)
    (pid : String) (h : s.activeChannels = [{ ident := now, filterPatientId := pid }])
    (m : Msg) :
    (deliverInsert s m).messages =
      s.messages ++ (if m.patient_id = pid then [m] else []) := by
  rw [deliverInsert, h]
  by_cases hm : m.patient_id = pid
  · simp [hm, handleNewMessage]
  · have hne : ¬ (pid = m.patient_id) := fun h2 => hm h2.symm
    simp [hne, hm]

/-- After cleanup, a well-formed view has no registered channel. -/
theorem cleanup_clears (s : ChatScreenState) (h : wfView s) :
    (cleanupEffect s).activeChannels = [] ∧ (cleanupEffect s).channelRef = none := by
  cases hc : s.channelRef with
  | none =>
      rw [wfView, hc] at h
      simp [cleanupEffect, hc, h]
  | some c =>
      rw [wfView, hc] at h
      simp [cleanupEffect, hc, removeChannel, h]

theorem mem_insertByTs {α : Type} (ts : α → Nat) (m a : α) (l : List α) :
    a ∈ insertByTs ts m l ↔ a = m ∨ a ∈ l := by
  induction l with
  | nil => simp [insertByTs]
  | cons y ys ih =>
      rw [insertByTs]
      by_cases h : ts m ≤ ts y
      · simp [h]
      · simp only [if_neg h, List.mem_cons, ih]
        tauto

theorem mem_sortByCreatedAt {α : Type} (ts : α → Nat) (a : α) (l : List α) :
    a ∈ sortByCreatedAt ts l ↔ a ∈ l := by
  induction l with
  | nil => simp [sortByCreatedAt]
  | cons x xs ih => simp [sortByCreatedAt, mem_insertByTs, ih]

theorem sorted_insertByTs {α : Type} (ts : α → Nat) (m : α) (l : List α)
    (h : List.Pairwise (fun a b => ts a ≤ ts b) l) :
    List.Pairwise (fun a b => ts a ≤ ts b) (insertByTs ts m l) := by
  induction l with
  | nil => simp [insertByTs]
  | cons y ys ih =>
      rw [insertByTs]
      rcases List.pairwise_cons.mp h with ⟨hy, hys⟩
      by_cases hle : ts m ≤ ts y
      · rw [if_pos hle]
        refine List.pairwise_cons.mpr ⟨?_, h⟩
        intro b hb
        rcases List.mem_cons.mp hb with rfl | hb
        · exact hle
        · exact le_trans hle (hy b hb)
      · rw [if_neg hle]
        refine List.pairwise_cons.mpr ⟨?_, ih hys⟩
        intro b hb
        rcases (mem_insertByTs ts m b ys).mp hb with rfl | hb
        · exact le_of_not_le hle
        · exact hy b hb

theorem sorted_sortByCreatedAt {α : Type} (ts : α → Nat) (l : List α) :
    List.Pairwise (fun a b => ts a ≤ ts b) (sortByCreatedAt ts l) := by
  induction l with
  | nil => simp [sortByCreatedAt]
  | cons x xs ih => exact sorted_insertByTs ts x _ ih

theorem insertByTs_append_last {α : Type} (ts : α → Nat) (x m : α) (s : List α)
    (hx : ts x ≤ ts m) :
    insertByTs ts x (s ++ [m]) = insertByTs ts x s ++ [m] := by
  induction s with
  | nil => simp [insertByTs, hx]
  | cons y ys ih =>
      rw [List.cons_append, insertByTs, insertByTs]
      by_cases h : ts x ≤ ts y
      · simp [h]
      · simp [h, ih]

theorem sortByCreatedAt_append_last {α : Type} (ts : α → Nat) (l : List α) (m : α)
    (h : ∀ y ∈ l, ts y ≤ ts m) :
    sortByCreatedAt ts (l ++ [m]) = sortByCreatedAt ts l ++ [m] := by
  induction l with
  | nil => simp [sortByCreatedAt, insertByTs]
  | cons x xs ih =>
      rw [List.cons_append, sortByCreatedAt, sortByCreatedAt,
        ih (fun y hy => h y (List.mem_cons_of_mem _ hy)),
        insertByTs_append_last ts x m _ (h x (List.mem_cons_self _ _))]

/-! ### Claim theorems -/

/-- C1 (counterexample): the claim says a live event whose message id is
already present in the sequence is not appended, so the sequence never holds
two messages with the same id. On the code this fails: seed the view with the
historical fetch returning message m1, subscribe, and deliver the echo of m1;
`handleNewMessage` appends it unconditionally and the sequence holds the id
"m1" twice. -/
theorem duplicate_live_event_appended_cex :
    (runView "p1" [ViewOp.fetch [msgHello], ViewOp.subscribe 0,
        ViewOp.deliver msgHello]).messages = [msgHello, msgHello] ∧
    ¬ ((runView "p1" [ViewOp.fetch [msgHello], ViewOp.subscribe 0,
        ViewOp.deliver msgHello]).messages.map Msg.id).Nodup := by
  constructor
  · rfl
  · decide

/-- C1 (amended): the INSERT handler appends a matching live event to the
in-memory sequence unconditionally, with no duplicate-id check; in
particular, delivering an event whose id is already present (such as the
echo of the view's own insert) appends it again, and the sequence then
contains two messages with the same id. -/
theorem live_event_appended_unconditionally (pid : String) (now : Nat)
    (s : ChatScreenState) (m : Msg) (h : wfView s) (hmem : m ∈ s.messages)
    (hmatch : m.patient_id = pid) :
    (deliverInsert (subscribeToMessages pid now s) m).messages =
      (subscribeToMessages pid now s).messages ++ [m] ∧
    ¬ ((deliverInsert (subscribeToMessages pid now s) m).messages.map
        Msg.id).Nodup := by
  have heq := deliverInsert_single_channel (subscribeToMessages pid now s) now pid
    (subscribeToMessages_activeChannels pid now s h) m
  rw [if_pos hmatch] at heq
  refine ⟨heq, ?_⟩
  rw [heq, subscribeToMessages_messages]
  intro hnd
  rcases List.nodup_append.mp (by simpa using hnd) with ⟨_, _, hdisj⟩
  exact hdisj (List.mem_map_of_mem Msg.id hmem) (by simp)

theorem live_event_appended_unconditionally_witness :
    wfView seededState ∧ msgHello ∈ seededState.messages ∧
    (deliverInsert (subscribeToMessages "p1" 7 seededState) msgHello).messages =
      (subscribeToMessages "p1" 7 seededState).messages ++ [msgHello] :=
  ⟨rfl, by simp [seededState],
    (live_event_appended_unconditionally "p1" 7 seededState msgHello rfl
      (by simp [seededState]) rfl).1⟩

/-- C3 (counterexample): the claim says two live events with identical
timestamps end up ordered by lexicographic id whichever arrives first. On
the code the merge is a plain append, so the two arrival orders of events
m2 and m3 (identical `created_at` 5, ids "m2" < "m3") produce different
final sequences. -/
theorem equal_timestamp_order_depends_on_arrival_cex :
    msgHey.created_at = msgHo.created_at ∧
    (runView "p1" [ViewOp.subscribe 0, ViewOp.deliver msgHo,
        ViewOp.deliver msgHey]).messages = [msgHo, msgHey] ∧
    (runView "p1" [ViewOp.subscribe 0, ViewOp.deliver msgHey,
        ViewOp.deliver msgHo]).messages = [msgHey, msgHo] ∧
    (runView "p1" [ViewOp.subscribe 0, ViewOp.deliver msgHo,
        ViewOp.deliver msgHey]).messages ≠
      (runView "p1" [ViewOp.subscribe 0, ViewOp.deliver msgHey,
        ViewOp.deliver msgHo]).messages := by
  refine ⟨rfl, rfl, rfl, ?_⟩
  decide

/-- C3 (amended): matching live events are appended in arrival order with no
timestamp tie-break; after a subscription, delivering m and then m2 yields
the previous sequence followed by (the matching ones among) m and m2 in that
arrival order, so the final order of equal-timestamp events follows arrival
order. -/
theorem live_events_appended_in_arrival_order (pid : String) (now : Nat)
    (ops : List ViewOp) (m m2 : Msg) :
    (stepView pid (stepView pid (stepView pid (runView pid ops)
        (ViewOp.subscribe now)) (ViewOp.deliver m)) (ViewOp.deliver m2)).messages =
      (stepView pid (runView pid ops) (ViewOp.subscribe now)).messages ++
        (if m.patient_id = pid then [m] else []) ++
        (if m2.patient_id = pid then [m2] else []) := by
  have hwf := wfView_run pid ops
  have hch := subscribeToMessages_activeChannels pid now (runView pid ops) hwf
  have hch2 : (deliverInsert (subscribeToMessages pid now (runView pid ops))
      m).activeChannels = [{ ident := now, filterPatientId := pid }] := by
    rw [(deliverInsert_channels _ m).1, hch]
  show (deliverInsert (deliverInsert (subscribeToMessages pid now (runView pid ops)) m)
      m2).messages = _
  rw [deliverInsert_single_channel _ now pid hch2 m2,
    deliverInsert_single_channel _ now pid hch m]
  rfl

/-- C4 (confirmed): after the effect cleanup removes the view's channel, a
would-be delivery through that channel leaves the in-memory sequence (hence
its length) unchanged, for every view history. -/
theorem no_delivery_after_cleanup (pid : String) (ops : List ViewOp) (m : Msg) :
    (stepView pid (stepView pid (runView pid ops) ViewOp.cleanup)
        (ViewOp.deliver m)).messages =
      (stepView pid (runView pid ops) ViewOp.cleanup).messages := by
  have h := cleanup_clears (runView pid ops) (wfView_run pid ops)
  show (deliverInsert (cleanupEffect (runView pid ops)) m).messages = _
  rw [deliverInsert, h.1]
  rfl

/-- C5 (confirmed): along every lifecycle of the view, at most one channel
is registered at a time, and each `subscribeToMessages` call first tears
down the prior channel so that afterwards exactly the newly created channel
(whose identity carries the clock value of this open) is registered. -/
theorem at_most_one_active_channel (pid : String) (ops : List ViewOp) (now : Nat) :
    (runView pid ops).activeChannels.length ≤ 1 ∧
    (stepView pid (runView pid ops) (ViewOp.subscribe now)).activeChannels =
      [{ ident := now, filterPatientId := pid }] := by
  have h := wfView_run pid ops
  constructor
  · rw [wfView] at h
    rw [h]
    cases (runView pid ops).channelRef <;> simp
  · exact subscribeToMessages_activeChannels pid now _ h

/-- C6 (counterexample): the claim says only insert events of the view's own
conversation are ever appended. The `[patientId].tsx` subscription filters on
`patient_id`, not on the conversation (`chat_id`): two events that belong to
different conversations ("c1" and "c2") of the same patient are both
delivered and appended to the one view. -/
theorem foreign_conversation_event_appended_cex :
    (runView "p1" [ViewOp.subscribe 0, ViewOp.deliver msgChatA,
        ViewOp.deliver msgOtherChat]).messages = [msgChatA, msgOtherChat] ∧
    msgChatA.chat_id ≠ msgOtherChat.chat_id := by
  refine ⟨rfl, ?_⟩
  decide

/-- C6 (amended): `RealTimeChat` subscribes with filter `chat_id=eq.<chatId>`
and appends an event exactly when its `chat_id` equals the given conversation
id; the `[patientId].tsx` screen instead subscribes with filter
`patient_id=eq.<patientId>` and appends an event exactly when its
`patient_id` matches, regardless of which conversation (`chat_id`) the event
belongs to. -/
theorem subscription_filter_behavior (cid pid : String) (now : Nat)
    (rops : List RTOp) (ops : List ViewOp) (rm : RTMsg) (m : Msg) :
    ((stepRT cid (stepRT cid (runRT cid rops) RTOp.subscribe)
        (RTOp.deliver rm)).messages =
      if rm.chat_id = cid then (runRT cid rops).messages ++ [rm]
      else (runRT cid rops).messages) ∧
    ((stepView pid (stepView pid (runView pid ops) (ViewOp.subscribe now))
        (ViewOp.deliver m)).messages =
      if m.patient_id = pid
      then (stepView pid (runView pid ops) (ViewOp.subscribe now)).messages ++ [m]
      else (stepView pid (runView pid ops) (ViewOp.subscribe now)).messages) := by
  constructor
  · by_cases hm : rm.chat_id = cid <;>
      simp [stepRT, rtDeliverInsert, hm]
  · have h := deliverInsert_single_channel (subscribeToMessages pid now (runView pid ops))
      now pid (subscribeToMessages_activeChannels pid now _ (wfView_run pid ops)) m
    by_cases hm : m.patient_id = pid
    · rw [if_pos hm] at h
      simpa [stepView, hm] using h
    · rw [if_neg hm] at h
      simpa [stepView, hm] using h

theorem selectChatId_none_iff (db : List ChatRec) (pid did : String) :
    selectChatId db pid did = none ↔
      ∀ c ∈ db, ¬ (c.patient_id == pid && c.doctor_id == did) = true := by
  rw [selectChatId, Option.map_eq_none']
  exact List.find?_eq_none

/-- C2 (counterexample): the claim says that when the creation insert fails
with a unique-constraint violation because a concurrent resolver already
created the record, the code re-queries and returns the now-existing id. On
the code this fails: with no chat at select time and the pair created
concurrently before the insert, `sendMessage` hits
`if (newChatError) throw newChatError` and the call errors instead of
returning the existing id "c0". -/
theorem resolve_race_errors_cex :
    resolveConversation [] [chatRec0] "p1" "d1" "c1" =
      Except.error ResolveError.uniqueViolation := rfl

/-- C2 (amended): `resolveConversation` returns the id of the existing
conversation when the select finds one; in the absence of concurrency it
creates exactly one record and a repeated call returns that same id; but
when the creation insert fails with a unique-constraint violation because a
concurrent resolver created the pair between the select and the insert, the
error is thrown to the caller — there is no re-query. -/
theorem resolveConversation_behavior
    (dbS dbI db : List ChatRec) (pid did newId cid anyId : String) :
    (selectChatId dbS pid did = some cid →
      resolveConversation dbS dbI pid did newId = .ok (cid, dbI)) ∧
    (selectChatId db pid did = none →
      resolveConversation db db pid did newId =
          .ok (newId, db ++ [⟨newId, pid, did⟩]) ∧
        resolveConversation (db ++ [⟨newId, pid, did⟩]) (db ++ [⟨newId, pid, did⟩])
          pid did anyId = .ok (newId, db ++ [⟨newId, pid, did⟩])) ∧
    (selectChatId dbS pid did = none →
      dbI.any (fun c => c.patient_id == pid && c.doctor_id == did) = true →
      resolveConversation dbS dbI pid did newId =
        .error ResolveError.uniqueViolation) := by
  refine ⟨?_, ?_, ?_⟩
  · intro h
    rw [resolveConversation, h]
  · intro h
    have hall := (selectChatId_none_iff db pid did).mp h
    have hany : db.any (fun c => c.patient_id == pid && c.doctor_id == did) = false :=
      List.any_eq_false.mpr hall
    have hnone : db.find? (fun c => c.patient_id == pid && c.doctor_id == did) = none :=
      List.find?_eq_none.mpr hall
    constructor
    · rw [resolveConversation, h, insertChatRec]
      simp [hany]
    · have hsel : selectChatId (db ++ [⟨newId, pid, did⟩]) pid did = some newId := by
        rw [selectChatId, List.find?_append, hnone]
        simp
      rw [resolveConversation, hsel]
  · intro h hany
    rw [resolveConversation, h, insertChatRec]
    simp [hany]

theorem resolveConversation_behavior_witness :
    resolveConversation [chatRec0] [chatRec0] "p1" "d1" "c1" =
      .ok ("c0", [chatRec0]) ∧
    resolveConversation [] [] "p1" "d1" "c1" = .ok ("c1", [] ++ [chatRec1]) ∧
    resolveConversation ([] ++ [chatRec1]) ([] ++ [chatRec1]) "p1" "d1" "c9" =
      .ok ("c1", [] ++ [chatRec1]) ∧
    resolveConversation [] [chatRec0] "p1" "d1" "c9" =
      .error ResolveError.uniqueViolation :=
  ⟨(resolveConversation_behavior [chatRec0] [chatRec0] [] "p1" "d1" "c1" "c0" "c9").1
      (by decide),
    ((resolveConversation_behavior [] [] [] "p1" "d1" "c1" "c0" "c9").2.1 rfl).1,
    ((resolveConversation_behavior [] [] [] "p1" "d1" "c1" "c0" "c9").2.1 rfl).2,
    (resolveConversation_behavior [] [chatRec0] [] "p1" "d1" "c9" "c0" "x").2.2
      rfl (by decide)⟩

/-- C7 (counterexample): the claim says an empty-after-trim body is rejected
locally with a ValidationError. On the code the local rejection happens but
no error of any kind is produced: both send paths return early with no
alert, no console log, no cleared input — a silent no-op, not a surfaced
ValidationError. -/
theorem blank_send_silent_noop_cex :
    sendMessageDoc "p1" (some "d1") false blankInput [] sendEnvOk =
      { calls := [], uiAlert := none, inputAfter := blankInput,
        messagesAfter := [] } ∧
    sendMessageRT "c1" "u1" blankInput [] false =
      { calls := [], uiAlert := none, consoleErrorLogged := false,
        inputAfter := blankInput, messagesAfter := [] } := by
  constructor
  · decide
  · decide

/-- C7 (amended): for every body that is empty after trimming, both send
paths return before any I/O: zero store calls are issued and the in-memory
sequence is unchanged — but no ValidationError (indeed no error signal at
all) is produced; the send is silently ignored. -/
theorem blank_send_no_io (pid did input : String) (sending : Bool)
    (messages : List Msg) (env : SendEnv) (chatId userId : String)
    (rmessages : List RTMsg) (insertFails : Bool)
    (h : trimString input = "") :
    sendMessageDoc pid (some did) sending input messages env =
      { calls := [], uiAlert := none, inputAfter := input,
        messagesAfter := messages } ∧
    sendMessageRT chatId userId input rmessages insertFails =
      { calls := [], uiAlert := none, consoleErrorLogged := false,
        inputAfter := input, messagesAfter := rmessages } := by
  constructor
  · simp only [sendMessageDoc]
    rw [if_pos (Or.inl h)]
  · rw [sendMessageRT, if_pos (by rw [h]; rfl)]

theorem blank_send_no_io_witness :
    trimString blankInput = "" ∧
    sendMessageDoc "p1" (some "d1") false blankInput [] sendEnvOk =
      { calls := [], uiAlert := none, inputAfter := blankInput,
        messagesAfter := [] } :=
  ⟨by decide,
    (blank_send_no_io "p1" "d1" blankInput false [] sendEnvOk "c1" "u1" [] false
      (by decide)).1⟩

/-- C8 (counterexample): the claim says every append failure is surfaced to
the caller rather than silently dropped. In `RealTimeChat.tsx` a failing
insert is only logged with `console.error`: no alert or other UI surface is
produced (and the input is left as it was), so from the caller's side the
PersistenceError is dropped. The sequence is indeed unchanged. -/
theorem rt_send_failure_not_surfaced_cex :
    sendMessageRT "c1" "u1" "hello" [] true =
      { calls := [RTCall.insertMessage "c1" "u1" "hello"], uiAlert := none,
        consoleErrorLogged := true, inputAfter := "hello",
        messagesAfter := [] } := by
  decide

/-- C8 (amended): when the message insert fails, the `[patientId].tsx` screen
surfaces the failure as an alert, while `RealTimeChat.tsx` only logs it to
the console (no UI alert, input left intact); in both screens `sendMessage`
never mutates the in-memory sequence — on failure or success alike, the
sequence is updated only via the live echo, so a failed send leaves it
unchanged. -/
theorem send_failure_surfacing_and_sequence
    (pid did cid input : String) (messages : List Msg) (o : Option String)
    (chatId userId rinput : String) (rmessages : List RTMsg)
    (h : ¬ trimString input = "") (hr : ¬ (trimString rinput).length = 0) :
    (sendMessageDoc pid (some did) false input messages
        { selectChatOutcome := SelectOutcome.rows cid, insertChatOutcome := o,
          insertMessageFails := true }).uiAlert = some "Failed to send message" ∧
    (∀ doctor sending env,
      (sendMessageDoc pid doctor sending input messages env).messagesAfter =
        messages) ∧
    (sendMessageRT chatId userId rinput rmessages true).uiAlert = none ∧
    (sendMessageRT chatId userId rinput rmessages true).consoleErrorLogged = true ∧
    (sendMessageRT chatId userId rinput rmessages true).inputAfter = rinput ∧
    (∀ fails,
      (sendMessageRT chatId userId rinput rmessages fails).messagesAfter =
        rmessages) := by
  refine ⟨?_, ?_, ?_, ?_, ?_, ?_⟩
  · simp [sendMessageDoc, h, finishSendDoc]
  · intro doctor sending env
    cases doctor with
    | none => rfl
    | some d =>
        simp only [sendMessageDoc]
        split
        · rfl
        · split
          · rfl
          · simp only [finishSendDoc]
            split <;> rfl
          · split
            · rfl
            · simp only [finishSendDoc]
              split <;> rfl
  · simp [sendMessageRT, hr]
  · simp [sendMessageRT, hr]
  · simp [sendMessageRT, hr]
  · intro fails
    cases fails <;> simp [sendMessageRT, hr]

theorem send_failure_surfacing_and_sequence_witness :
    ¬ trimString "hi" = "" ∧
    (sendMessageDoc "p1" (some "d1") false "hi" []
        { selectChatOutcome := SelectOutcome.rows "c1", insertChatOutcome := none,
          insertMessageFails := true }).uiAlert = some "Failed to send message" ∧
    (sendMessageRT "c1" "u1" "hello" [] true).consoleErrorLogged = true :=
  ⟨by decide,
    (send_failure_surfacing_and_sequence "p1" "d1" "c1" "hi" [] none "c1" "u1"
      "hello" [] (by decide) (by decide)).1,
    (send_failure_surfacing_and_sequence "p1" "d1" "c1" "hi" [] none "c1" "u1"
      "hello" [] (by decide) (by decide)).2.2.2.1⟩

/-- C9 (counterexample): the claim says fetchHistory(conversationId) returns
all persisted messages of that conversation (empty for a new conversation).
The `[patientId].tsx` `fetchMessages` — one of the two cited fetch paths —
queries `.eq('patient_id', patientId)`, not the conversation: with the table
holding only a message of conversation "c2" of patient "p1", conversation
"c1" is new (it has no persisted messages), yet the screen's fetch for
patient "p1" returns that other conversation's message, so the seeded
sequence is neither conversation-scoped nor empty. -/
theorem patient_fetch_other_conversation_cex :
    List.filter (fun r => r.chat_id = "c1") [msgOtherChat] = [] ∧
    fetchMessagesDocQuery [msgOtherChat] "p1" = [msgOtherChat] ∧
    ¬ msgOtherChat.chat_id = "c1" := by
  refine ⟨?_, ?_, ?_⟩
  · decide
  · rfl
  · decide

/-- C9 (amended): the `RealTimeChat.tsx` history query returns exactly the
persisted messages of the given conversation (`chat_id`), ordered by
creation timestamp ascending and empty for a new conversation, and after a
successful append of a row with a fresh store-assigned id and a timestamp at
least those already persisted for the conversation, the returned sequence is
the previous history with the new message exactly once, at the tail; the
`[patientId].tsx` `fetchMessages`, however, is keyed by `patient_id`: it
returns exactly the patient's messages ordered ascending, whatever
conversation they belong to, so it is conversation-scoped (and empty for a
new conversation) only insofar as the patient has no other conversations. -/
theorem fetch_after_append_tail (db : List RTMsg) (row : RTMsg) (cid : String)
    (db2 : List Msg) (pid : String)
    (hcid : row.chat_id = cid)
    (hfresh : ∀ y ∈ db, ¬ y.id = row.id)
    (hts : ∀ y ∈ db, y.chat_id = cid → y.created_at ≤ row.created_at) :
    fetchMessagesQuery (appendMessage db row) cid =
      fetchMessagesQuery db cid ++ [row] ∧
    List.Pairwise (fun a b => a.created_at ≤ b.created_at)
      (fetchMessagesQuery (appendMessage db row) cid) ∧
    (fetchMessagesQuery (appendMessage db row) cid).countP
      (fun y => y.id == row.id) = 1 ∧
    (∀ y, y ∈ fetchMessagesQuery db cid ↔ y ∈ db ∧ y.chat_id = cid) ∧
    fetchMessagesQuery [] cid = [] ∧
    (∀ y, y ∈ fetchMessagesDocQuery db2 pid ↔ y ∈ db2 ∧ y.patient_id = pid) ∧
    List.Pairwise (fun a b => a.created_at ≤ b.created_at)
      (fetchMessagesDocQuery db2 pid) := by
  have hfilter : (appendMessage db row).filter (fun r => r.chat_id = cid) =
      db.filter (fun r => r.chat_id = cid) ++ [row] := by
    rw [appendMessage, List.filter_append]
    simp [hcid]
  have hmain : fetchMessagesQuery (appendMessage db row) cid =
      fetchMessagesQuery db cid ++ [row] := by
    rw [fetchMessagesQuery, hfilter, fetchMessagesQuery]
    apply sortByCreatedAt_append_last
    intro y hy
    rcases List.mem_filter.mp hy with ⟨hy1, hy2⟩
    exact hts y hy1 (by simpa using hy2)
  refine ⟨hmain, ?_, ?_, ?_, rfl, ?_, ?_⟩
  · rw [fetchMessagesQuery]
    exact sorted_sortByCreatedAt _ _
  · rw [hmain, List.countP_append]
    have h0 : (fetchMessagesQuery db cid).countP (fun y => y.id == row.id) = 0 := by
      rw [List.countP_eq_zero]
      intro y hy
      have hmem : y ∈ db := by
        rw [fetchMessagesQuery] at hy
        exact (List.mem_filter.mp ((mem_sortByCreatedAt _ y _).mp hy)).1
      simpa using hfresh y hmem
    rw [h0]
    simp
  · intro y
    rw [fetchMessagesQuery, mem_sortByCreatedAt, List.mem_filter]
    simp
  · intro y
    rw [fetchMessagesDocQuery, mem_sortByCreatedAt, List.mem_filter]
    simp
  · rw [fetchMessagesDocQuery]
    exact sorted_sortByCreatedAt _ _

theorem fetch_after_append_tail_witness :
    fetchMessagesQuery (appendMessage [rtMsgA] rtMsgB) "c1" =
      fetchMessagesQuery [rtMsgA] "c1" ++ [rtMsgB] ∧
    (fetchMessagesQuery (appendMessage [rtMsgA] rtMsgB) "c1").countP
      (fun y => y.id == rtMsgB.id) = 1 ∧
    (msgOtherChat ∈ fetchMessagesDocQuery [msgOtherChat] "p1" ↔
      msgOtherChat ∈ [msgOtherChat] ∧ msgOtherChat.patient_id = "p1") :=
  ⟨(fetch_after_append_tail [rtMsgA] rtMsgB "c1" [msgOtherChat] "p1" rfl
      (by decide) (by decide)).1,
    (fetch_after_append_tail [rtMsgA] rtMsgB "c1" [msgOtherChat] "p1" rfl
      (by decide) (by decide)).2.2.1,
    (fetch_after_append_tail [rtMsgA] rtMsgB "c1" [msgOtherChat] "p1" rfl
      (by decide) (by decide)).2.2.2.2.2.1 msgOtherChat⟩

/-- C10 (confirmed): in the pair-keyed screen, when the chat partner differs
from the current user, the live subscription (filtered on
`receiver_id = me`) never appends a message sent by the current user: the
handler branch accepting sender = me together with receiver = partner is
unreachable under the filter, so the user's own messages reach the sequence
only through the historical fetch. -/
theorem own_message_never_live_delivered (me partnerId : String)
    (messages : List UMsg) (m : UMsg) (hne : ¬ partnerId = me) :
    (m.sender_id = me → uDeliverInsert me partnerId messages m = messages) ∧
    (m.receiver_id = me → ¬ (m.sender_id = me ∧ m.receiver_id = partnerId)) := by
  constructor
  · intro hown
    rw [uDeliverInsert]
    by_cases hrecv : m.receiver_id = me
    · rw [if_pos hrecv, if_neg]
      rintro (⟨hs, _⟩ | ⟨_, hrp⟩)
      · exact hne (hs.symm.trans hown)
      · exact hne (hrp.symm.trans hrecv)
    · rw [if_neg hrecv]
  · rintro hrecv ⟨_, hrp⟩
    exact hne (hrp.symm.trans hrecv)

theorem own_message_never_live_delivered_witness :
    uDeliverInsert "u1" "u2" [] ownEchoMsg = [] :=
  (own_message_never_live_delivered "u1" "u2" [] ownEchoMsg (by decide)).1 rfl

end DiabeticCare
